import Mathlib

/-!
Shallow embedding of the link-reachability core of `seo_audit.py`
(`check_link` and `analyze_links`), with the HTTP network modelled by a
probe oracle assigning each URL the outcome of its single HEAD request.
-/

/-- Outcome of the single `session.head(url, timeout=5)` call made by
`check_link`: either an HTTP response with a status code, a transport-level
failure raising an exception (connection refused, DNS failure, TLS failure,
...), or expiry of the per-request timeout (which in `aiohttp`/`asyncio`
raises `TimeoutError`, itself a subclass of `Exception`). -/
inductive ProbeOutcome : Type
  | response (status : Nat)
  | transportError
  | timeout
deriving DecidableEq, Repr

/-- Embedding of `check_link` (seo_audit.py lines 55-61): on an HTTP
response it returns `(url, response.status < 400)`; the bare
`except Exception` clause catches every failure — transport errors and the
timeout alike — and returns `(url, False)`. -/
def check_link (url : String) (o : ProbeOutcome) : String × Bool :=
  match o with
  | ProbeOutcome.response status => (url, decide (status < 400))
  | ProbeOutcome.transportError => (url, false)
  | ProbeOutcome.timeout => (url, false)

/-- Python substring containment `needle in hay`, as used by the
`if base_url in full_url` test in `analyze_links`. -/
def strContains (hay needle : String) : Bool :=
  (List.range (hay.data.length + 1)).any
    (fun i => needle.data.isPrefixOf (hay.data.drop i))

/-- Scheme of an absolute URL: the characters before the first colon. -/
def schemeOf (url : String) : String :=
  String.mk (url.data.takeWhile (fun c => !(c == ':')))

/-- Does the string open with an explicit scheme, i.e. a non-empty run of
letters followed by a colon (as in `https://...` or `javascript:void(0)`)? -/
def hasExplicitScheme (s : String) : Bool :=
  let sch := s.data.takeWhile Char.isAlpha
  decide (0 < sch.length) &&
    (match s.data.drop sch.length with
     | c :: _ => c == ':'
     | [] => false)

/-- The part of an absolute `scheme://netloc/path` URL after `scheme://`. -/
def afterSchemeOf (url : String) : String :=
  String.mk ((url.data.dropWhile (fun c => !(c == ':'))).drop 3)

/-- Network location (host, and port when present) of an absolute URL. -/
def netlocOf (url : String) : String :=
  String.mk ((afterSchemeOf url).data.takeWhile
    (fun c => !(c == '/' || c == '?' || c == '#')))

/-- Origin `scheme://netloc` of an absolute URL. -/
def originOf (url : String) : String :=
  schemeOf url ++ "://" ++ netlocOf url

/-- Path component of an absolute URL (may be empty). -/
def pathOf (url : String) : String :=
  String.mk (((afterSchemeOf url).data.dropWhile
      (fun c => !(c == '/' || c == '?' || c == '#'))).takeWhile
    (fun c => !(c == '?' || c == '#')))

/-- The URL with its fragment (`#...`) removed. -/
def stripFragment (url : String) : String :=
  String.mk (url.data.takeWhile (fun c => !(c == '#')))

/-- Directory prefix of a path: everything up to and including the last
slash, or `/` when the path has no slash. -/
def dirOf (p : String) : String :=
  let d := String.mk ((p.data.reverse.dropWhile (fun c => !(c == '/'))).reverse)
  if d = "" then "/" else d

/-- Model of `urllib.parse.urljoin(base, href)` — stdlib code outside this
repository — for the URL shapes `analyze_links` feeds it, assuming `base`
is an absolute `http(s)` URL (the Streamlit entry point validates it with
`validators.url` first): an href carrying its own scheme (an absolute URL,
or a pseudo-URL such as `javascript:...`, whose scheme is not in
`uses_relative`) is returned unchanged; `//host/...` adopts the base's
scheme; `/path` is resolved against the base's origin; `#frag` replaces the
base's fragment; `?query` replaces the base's query; a relative path
replaces the last segment of the base's path. -/
def urljoin (base href : String) : String :=
  if href = "" then base
  else if hasExplicitScheme href then href
  else if href.data.take 2 = ['/', '/'] then schemeOf base ++ ":" ++ href
  else if href.data.take 1 = ['/'] then originOf base ++ href
  else if href.data.take 1 = ['#'] then stripFragment base ++ href
  else if href.data.take 1 = ['?'] then originOf base ++ pathOf base ++ href
  else originOf base ++ dirOf (pathOf base) ++ href

/-- Accumulating pass of `analyze_links` (seo_audit.py lines 64-82): for
each of the first 50 anchors (`links[:50]`), resolve the href against
`base_url`, append the resolved URL to `internal_links` when
`base_url in full_url` and to `external_links` otherwise, and in both
branches append a `check_link` task.  `asyncio.gather` returns the task
results in submission order, so the results list is the tasks list mapped
through `check_link` with each URL's probe outcome. -/
def analyze_links_core (links : List String) (base_url : String)
    (probe : String → ProbeOutcome) :
    List String × List String × List (String × Bool) :=
  (links.take 50).foldl
    (fun acc href =>
      if strContains (urljoin base_url href) base_url then
        (acc.1 ++ [urljoin base_url href], acc.2.1,
          acc.2.2 ++ [check_link (urljoin base_url href)
            (probe (urljoin base_url href))])
      else
        (acc.1, acc.2.1 ++ [urljoin base_url href],
          acc.2.2 ++ [check_link (urljoin base_url href)
            (probe (urljoin base_url href))]))
    ([], [], [])

/-- Embedding of `analyze_links` (seo_audit.py lines 64-85): returns
`(internal_links, external_links, broken_links)` where
`broken_links = [url for url, is_valid in results if not is_valid]`. -/
def analyze_links (links : List String) (base_url : String)
    (probe : String → ProbeOutcome) :
    List String × List String × List String :=
  let r := analyze_links_core links base_url probe
  (r.1, r.2.1, (r.2.2.filter (fun t => !t.2)).map Prod.fst)

/-- `check_link` always reports the URL it was given. -/
theorem check_link_fst (url : String) (o : ProbeOutcome) :
    (check_link url o).1 = url := by
  cases o <;> rfl

/-- Closed form of the accumulating pass of `analyze_links`, with the
accumulator generalized: internal links are the resolved URLs containing
`base_url` as a substring, external links are the rest, and the gathered
results are the resolved URLs mapped through `check_link` in document
order. -/
theorem analyze_links_foldl_eq (base_url : String) (probe : String → ProbeOutcome)
    (hrefs : List String) (i e : List String) (r : List (String × Bool)) :
    hrefs.foldl
      (fun acc href =>
        if strContains (urljoin base_url href) base_url then
          (acc.1 ++ [urljoin base_url href], acc.2.1,
            acc.2.2 ++ [check_link (urljoin base_url href)
              (probe (urljoin base_url href))])
        else
          (acc.1, acc.2.1 ++ [urljoin base_url href],
            acc.2.2 ++ [check_link (urljoin base_url href)
              (probe (urljoin base_url href))]))
      (i, e, r)
    = (i ++ (hrefs.map (urljoin base_url)).filter (fun u => strContains u base_url),
       e ++ (hrefs.map (urljoin base_url)).filter (fun u => !strContains u base_url),
       r ++ hrefs.map (fun href =>
         check_link (urljoin base_url href) (probe (urljoin base_url href)))) := by
  induction hrefs generalizing i e r with
  | nil => simp
  | cons h t ih =>
    simp only [List.foldl_cons, List.map_cons, List.filter_cons]
    by_cases hc : strContains (urljoin base_url h) base_url
    · rw [if_pos hc, ih]
      simp [hc]
    · rw [if_neg hc, ih]
      simp [Bool.not_eq_true] at hc
      simp [hc]

/-- Closed form of `analyze_links_core`. -/
theorem analyze_links_core_eq (links : List String) (base_url : String)
    (probe : String → ProbeOutcome) :
    analyze_links_core links base_url probe
    = (((links.take 50).map (urljoin base_url)).filter
         (fun u => strContains u base_url),
       ((links.take 50).map (urljoin base_url)).filter
         (fun u => !strContains u base_url),
       (links.take 50).map (fun href =>
         check_link (urljoin base_url href) (probe (urljoin base_url href)))) := by
  unfold analyze_links_core
  rw [analyze_links_foldl_eq]
  simp

/-- Extracting the URLs of the failed entries from a results list built by
mapping a URL-preserving check over the URL list is the same as filtering
the URL list by failure of the check. -/
theorem map_fst_filter_not_snd (g : String → String × Bool)
    (hg : ∀ u, (g u).1 = u) (l : List String) :
    ((l.map g).filter (fun t => !t.2)).map Prod.fst
    = l.filter (fun u => !(g u).2) := by
  induction l with
  | nil => rfl
  | cons h t ih =>
    by_cases hb : (g h).2 <;> simp [hb, hg, ih]

/-- The broken-links list of `analyze_links` is the document-order filter
of the resolved probed URLs by probe failure. -/
theorem broken_links_eq (links : List String) (base_url : String)
    (probe : String → ProbeOutcome) :
    (analyze_links links base_url probe).2.2
    = ((links.take 50).map (urljoin base_url)).filter
        (fun u => !(check_link u (probe u)).2) := by
  unfold analyze_links
  rw [analyze_links_core_eq]
  have hmm : (links.take 50).map (fun href =>
      check_link (urljoin base_url href) (probe (urljoin base_url href)))
      = ((links.take 50).map (urljoin base_url)).map
          (fun u => check_link u (probe u)) := by
    rw [List.map_map]
    rfl
  rw [hmm]
  exact map_fst_filter_not_snd (fun u => check_link u (probe u))
    (fun u => check_link_fst u (probe u)) ((links.take 50).map (urljoin base_url))

/-- A filter and its complementary filter partition a list's length. -/
theorem length_filter_partition {α : Type} (p : α → Bool) (l : List α) :
    (l.filter p).length + (l.filter (fun a => !p a)).length = l.length := by
  induction l with
  | nil => rfl
  | cons h t ih =>
    by_cases hp : p h <;> simp [hp, ih] <;> omega

/-- A filter and its complementary filter partition a list's element
counts. -/
theorem count_filter_partition (p : String → Bool) (u : String) (l : List String) :
    (l.filter p).count u + (l.filter (fun a => !p a)).count u = l.count u := by
  induction l with
  | nil => rfl
  | cons h t ih =>
    by_cases hp : p h <;> by_cases hb : u == h <;>
      simp [hp, hb, List.count_cons, List.filter_cons] <;> omega

/-- Claim C1, as stated, is false at a concrete input: with two anchors
`/a` resolving to the same URL, the resolved URL appears twice in the
output (twice among the internal links and, with failing probes, twice in
the broken list) — not exactly once. -/
theorem C1_counterexample :
    (analyze_links ["/a", "/a"] "https://s.example"
      (fun _ => ProbeOutcome.transportError)).1.count "https://s.example/a" = 2
    ∧ (analyze_links ["/a", "/a"] "https://s.example"
      (fun _ => ProbeOutcome.transportError)).2.2.count "https://s.example/a" = 2 := by
  constructor <;> rfl

/-- Claim C1 (amended): each of the first 50 anchor hrefs yields exactly
one probe result carrying its resolved URL, in document order and once per
occurrence (duplicate resolved URLs included); the number of probed
references equals the reachable results plus the broken results — there is
no Indeterminate category in the code — and every probed reference lands
in exactly one of the internal/external lists. -/
theorem C1_exactly_once_accounting (links : List String) (base_url : String)
    (probe : String → ProbeOutcome) :
    ((analyze_links_core links base_url probe).2.2).map Prod.fst
      = (links.take 50).map (urljoin base_url)
    ∧ (analyze_links_core links base_url probe).2.2.length
      = ((analyze_links_core links base_url probe).2.2.filter (fun t => t.2)).length
        + (analyze_links links base_url probe).2.2.length
    ∧ (analyze_links links base_url probe).1.length
        + (analyze_links links base_url probe).2.1.length
      = (links.take 50).length := by
  have hcore := analyze_links_core_eq links base_url probe
  refine ⟨?_, ?_, ?_⟩
  · rw [hcore]
    simp only [List.map_map]
    exact List.map_congr_left (fun href _ => check_link_fst _ _)
  · simp only [analyze_links, List.length_map]
    have h2 : ((analyze_links_core links base_url probe).2.2.filter
          (fun t => t.2)).length
        + ((analyze_links_core links base_url probe).2.2.filter
          (fun t => !t.2)).length
        = (analyze_links_core links base_url probe).2.2.length :=
      length_filter_partition _ _
    omega
  · simp only [analyze_links, hcore]
    have h3 : ((((links.take 50).map (urljoin base_url)).filter
          (fun u => strContains u base_url)).length
        + (((links.take 50).map (urljoin base_url)).filter
          (fun u => !strContains u base_url)).length)
        = ((links.take 50).map (urljoin base_url)).length :=
      length_filter_partition _ _
    rw [List.length_map] at h3
    omega

/-- Claim C2: on a completed HTTP response, a status in `[200, 400)` makes
`check_link` return `True` (the URL is not appended to the broken list), a
status `≥ 400` makes it return `False` (Broken), and any transport-level
exception is caught and likewise returns `False` (Broken). -/
theorem C2_status_mapping (url : String) (status : Nat) :
    (200 ≤ status → status < 400 →
      (check_link url (ProbeOutcome.response status)).2 = true)
    ∧ (400 ≤ status → (check_link url (ProbeOutcome.response status)).2 = false)
    ∧ (check_link url ProbeOutcome.transportError).2 = false := by
  refine ⟨?_, ?_, rfl⟩
  · intro _ h2
    simp [check_link, h2]
  · intro h
    simp [check_link]
    omega

/-- Witness for C2 at statuses 200, 404 and a transport failure. -/
theorem C2_status_mapping_witness :
    (check_link "https://site.example/ok" (ProbeOutcome.response 200)).2 = true
    ∧ (check_link "https://site.example/missing" (ProbeOutcome.response 404)).2 = false
    ∧ (check_link "https://site.example/err" ProbeOutcome.transportError).2 = false :=
  ⟨(C2_status_mapping "https://site.example/ok" 200).1 (by decide) (by decide),
   (C2_status_mapping "https://site.example/missing" 404).2.1 (by decide),
   (C2_status_mapping "https://site.example/err" 404).2.2⟩

/-- Claim C3, as stated, is false at a concrete input: a probe that times
out is placed in the broken-links list — the outcome is Broken, not a third
Indeterminate state (the output has no such state). -/
theorem C3_counterexample :
    (analyze_links ["/a"] "https://s.example" (fun _ => ProbeOutcome.timeout)).2.2
      = ["https://s.example/a"] := by
  rfl

/-- Claim C3 (amended): a timed-out probe is caught by the bare
`except Exception` clause and mapped to `(url, False)` — counted Broken
exactly like a transport failure, with no third Indeterminate state — and
never propagated to the caller; each reference's gathered result is a
function of that reference's own resolved URL and probe outcome alone, so
one probe's timeout affects no other reference's outcome. -/
theorem C3_timeout_counted_broken (links : List String) (base_url url : String)
    (probe : String → ProbeOutcome) :
    check_link url ProbeOutcome.timeout = (url, false)
    ∧ (analyze_links_core links base_url probe).2.2
      = (links.take 50).map (fun href =>
          check_link (urljoin base_url href) (probe (urljoin base_url href))) :=
  ⟨rfl, by rw [analyze_links_core_eq]⟩

/-- Claim C5, as stated, is false at a concrete input: with 51 anchors,
the 51st reference is dropped from every output list — internal and
external lists together carry only 50 entries and the 51st resolved URL
appears nowhere, instead of being reported Indeterminate with a
"skipped — over cap" reason (the output has no such entries at all). -/
theorem C5_counterexample :
    (List.replicate 50 "/a" ++ ["/b"]).length = 51
    ∧ (analyze_links (List.replicate 50 "/a" ++ ["/b"]) "https://s.example"
        (fun _ => ProbeOutcome.transportError)).1.length
      + (analyze_links (List.replicate 50 "/a" ++ ["/b"]) "https://s.example"
        (fun _ => ProbeOutcome.transportError)).2.1.length = 50
    ∧ "https://s.example/b" ∉ (analyze_links (List.replicate 50 "/a" ++ ["/b"])
        "https://s.example" (fun _ => ProbeOutcome.transportError)).1
    ∧ "https://s.example/b" ∉ (analyze_links (List.replicate 50 "/a" ++ ["/b"])
        "https://s.example" (fun _ => ProbeOutcome.transportError)).2.1
    ∧ "https://s.example/b" ∉ (analyze_links (List.replicate 50 "/a" ++ ["/b"])
        "https://s.example" (fun _ => ProbeOutcome.transportError)).2.2 := by
  have htake : (List.replicate 50 "/a" ++ ["/b"]).take 50 = List.replicate 50 "/a" :=
    List.take_left' (by simp)
  have hu : urljoin "https://s.example" "/a" = "https://s.example/a" := by decide
  have hres : ((List.replicate 50 "/a" ++ ["/b"]).take 50).map
      (urljoin "https://s.example") = List.replicate 50 "https://s.example/a" := by
    rw [htake, List.map_replicate, hu]
  refine ⟨by simp, ?_, ?_, ?_, ?_⟩
  · simp only [analyze_links, analyze_links_core_eq, hres, List.filter_replicate]
    simp [show strContains "https://s.example/a" "https://s.example" = true by decide]
  · simp only [analyze_links, analyze_links_core_eq, hres]
    intro hmem
    have := List.mem_of_mem_filter hmem
    rw [List.mem_replicate] at this
    exact absurd this.2 (by decide)
  · simp only [analyze_links, analyze_links_core_eq, hres]
    intro hmem
    have := List.mem_of_mem_filter hmem
    rw [List.mem_replicate] at this
    exact absurd this.2 (by decide)
  · rw [broken_links_eq, hres]
    intro hmem
    have := List.mem_of_mem_filter hmem
    rw [List.mem_replicate] at this
    exact absurd this.2 (by decide)

/-- Claim C5 (amended): only the first 50 anchors are processed —
`analyze_links` is unchanged by truncating its input to its first 50
entries, and by replacing the probe with any other probe agreeing on the
resolved URLs of those first 50 anchors (so no probe is issued for the
excess) — and the excess references are silently dropped: the internal and
external lists together carry exactly `min 50 n` entries. -/
theorem C5_cap_drops_excess (links : List String) (base_url : String)
    (probe probe' : String → ProbeOutcome)
    (h : ∀ href ∈ links.take 50,
      probe (urljoin base_url href) = probe' (urljoin base_url href)) :
    analyze_links links base_url probe
      = analyze_links (links.take 50) base_url probe
    ∧ (analyze_links links base_url probe).1.length
        + (analyze_links links base_url probe).2.1.length = min 50 links.length
    ∧ analyze_links links base_url probe = analyze_links links base_url probe' := by
  refine ⟨?_, ?_, ?_⟩
  · simp only [analyze_links, analyze_links_core_eq, List.take_take]
    simp
  · simp only [analyze_links, analyze_links_core_eq]
    have h3 : ((((links.take 50).map (urljoin base_url)).filter
          (fun u => strContains u base_url)).length
        + (((links.take 50).map (urljoin base_url)).filter
          (fun u => !strContains u base_url)).length)
        = ((links.take 50).map (urljoin base_url)).length :=
      length_filter_partition _ _
    rw [List.length_map, List.length_take] at h3
    omega
  · simp only [analyze_links, analyze_links_core_eq]
    have hmap : (links.take 50).map (fun href =>
        check_link (urljoin base_url href) (probe (urljoin base_url href)))
        = (links.take 50).map (fun href =>
          check_link (urljoin base_url href) (probe' (urljoin base_url href))) :=
      List.map_congr_left (fun a ha => by rw [h a ha])
    rw [hmap]

/-- Witness for C5 at a one-anchor document with two (equal) probes. -/
theorem C5_cap_drops_excess_witness :
    analyze_links ["/a"] "https://s.example" (fun _ => ProbeOutcome.response 200)
      = analyze_links (["/a"].take 50) "https://s.example"
          (fun _ => ProbeOutcome.response 200)
    ∧ (analyze_links ["/a"] "https://s.example"
        (fun _ => ProbeOutcome.response 200)).1.length
      + (analyze_links ["/a"] "https://s.example"
        (fun _ => ProbeOutcome.response 200)).2.1.length
      = min 50 (List.length ["/a"])
    ∧ analyze_links ["/a"] "https://s.example" (fun _ => ProbeOutcome.response 200)
      = analyze_links ["/a"] "https://s.example" (fun _ => ProbeOutcome.response 200) :=
  C5_cap_drops_excess ["/a"] "https://s.example" (fun _ => ProbeOutcome.response 200)
    (fun _ => ProbeOutcome.response 200) (fun _ _ => rfl)

/-- Claim C6, as stated, is false at a concrete input: two anchors `/x`
resolving to the same URL each produce their own entry and their own probe
task — the later duplicate is neither dropped nor merged. -/
theorem C6_counterexample :
    (analyze_links ["/x", "/x"] "https://s.example"
      (fun _ => ProbeOutcome.response 200)).1
      = ["https://s.example/x", "https://s.example/x"]
    ∧ (analyze_links_core ["/x", "/x"] "https://s.example"
      (fun _ => ProbeOutcome.response 200)).2.2.length = 2 := by
  constructor <;> rfl

/-- Claim C6 (amended): there is no deduplication — every occurrence of a
resolved URL among the first 50 anchors is listed and probed separately:
each URL's multiplicity in the internal plus external lists equals its
multiplicity among the resolved first-50 anchors, and the number of probe
results equals the number of processed anchors. -/
theorem C6_duplicates_kept (links : List String) (base_url u : String)
    (probe : String → ProbeOutcome) :
    (analyze_links links base_url probe).1.count u
      + (analyze_links links base_url probe).2.1.count u
      = ((links.take 50).map (urljoin base_url)).count u
    ∧ (analyze_links_core links base_url probe).2.2.length
      = (links.take 50).length := by
  constructor
  · simp only [analyze_links, analyze_links_core_eq]
    exact count_filter_partition _ u _
  · rw [analyze_links_core_eq]
    simp

/-- Claim C7, as stated, is false at a concrete input: the different-origin
URL `https://evil.example/?u=https://site.example` merely contains the base
URL `https://site.example` as a substring, yet `analyze_links` lists it as
an internal link and not as an external one. -/
theorem C7_counterexample :
    (analyze_links ["https://evil.example/?u=https://site.example"]
      "https://site.example" (fun _ => ProbeOutcome.response 200)).1
      = ["https://evil.example/?u=https://site.example"]
    ∧ (analyze_links ["https://evil.example/?u=https://site.example"]
      "https://site.example" (fun _ => ProbeOutcome.response 200)).2.1 = [] := by
  constructor <;> rfl

/-- Claim C7 (amended): classification is by substring containment, not by
origin — a resolved URL is listed internal iff `base_url` occurs in it as a
substring (`base_url in full_url`) and external otherwise; in particular a
different-origin URL that merely contains the base URL is classified
internal. -/
theorem C7_substring_classification (links : List String) (base_url : String)
    (probe : String → ProbeOutcome) :
    (analyze_links links base_url probe).1
      = ((links.take 50).map (urljoin base_url)).filter
          (fun u => strContains u base_url)
    ∧ (analyze_links links base_url probe).2.1
      = ((links.take 50).map (urljoin base_url)).filter
          (fun u => !strContains u base_url) := by
  constructor <;> simp only [analyze_links, analyze_links_core_eq]

/-- Claim C8, as stated, is false at a concrete input: for the scenario
document with anchors `/about`, `https://other.example/x` and
`javascript:void(0)` under base `https://site.example`, three references
are produced, not two — the `javascript:` pseudo-URL is kept, classified
external, probed like any other URL, and (its probe failing) surfaced in
the broken list. -/
theorem C8_counterexample :
    (analyze_links ["/about", "https://other.example/x", "javascript:void(0)"]
      "https://site.example"
      (fun u => if u = "javascript:void(0)" then ProbeOutcome.transportError
        else ProbeOutcome.response 200)).1 = ["https://site.example/about"]
    ∧ (analyze_links ["/about", "https://other.example/x", "javascript:void(0)"]
      "https://site.example"
      (fun u => if u = "javascript:void(0)" then ProbeOutcome.transportError
        else ProbeOutcome.response 200)).2.1
      = ["https://other.example/x", "javascript:void(0)"]
    ∧ (analyze_links ["/about", "https://other.example/x", "javascript:void(0)"]
      "https://site.example"
      (fun u => if u = "javascript:void(0)" then ProbeOutcome.transportError
        else ProbeOutcome.response 200)).2.2 = ["javascript:void(0)"] := by
  refine ⟨rfl, rfl, rfl⟩

/-- Claim C8 (amended): nothing is discarded — all three scenario anchors
produce references: `/about` is listed internal, while
`https://other.example/x` and the pseudo-URL `javascript:void(0)`
(returned unchanged by `urljoin` and not containing the base URL as a
substring) are listed external; the `javascript:` href is probed like any
other URL and, whenever its probe fails with a transport error (as it must,
not being fetchable), it is surfaced in the broken list. A fragment-only
href is likewise kept: it resolves to the page's URL plus the fragment and
is listed internal. -/
theorem C8_no_pseudo_url_filtering (probe : String → ProbeOutcome)
    (h : probe "javascript:void(0)" = ProbeOutcome.transportError) :
    (analyze_links ["/about", "https://other.example/x", "javascript:void(0)"]
      "https://site.example" probe).1 = ["https://site.example/about"]
    ∧ (analyze_links ["/about", "https://other.example/x", "javascript:void(0)"]
      "https://site.example" probe).2.1
      = ["https://other.example/x", "javascript:void(0)"]
    ∧ "javascript:void(0)" ∈ (analyze_links
        ["/about", "https://other.example/x", "javascript:void(0)"]
        "https://site.example" probe).2.2
    ∧ (analyze_links ["#top"] "https://site.example" probe).1
      = ["https://site.example#top"] := by
  refine ⟨rfl, rfl, ?_, rfl⟩
  rw [broken_links_eq]
  have hres : ((["/about", "https://other.example/x",
        "javascript:void(0)"].take 50).map (urljoin "https://site.example"))
      = ["https://site.example/about", "https://other.example/x",
        "javascript:void(0)"] := by decide
  rw [hres]
  apply List.mem_filter.mpr
  refine ⟨by simp, ?_⟩
  rw [h]
  rfl

/-- Witness for C8 with the all-failing probe. -/
theorem C8_no_pseudo_url_filtering_witness :
    (analyze_links ["/about", "https://other.example/x", "javascript:void(0)"]
      "https://site.example" (fun _ => ProbeOutcome.transportError)).1
      = ["https://site.example/about"]
    ∧ (analyze_links ["/about", "https://other.example/x", "javascript:void(0)"]
      "https://site.example" (fun _ => ProbeOutcome.transportError)).2.1
      = ["https://other.example/x", "javascript:void(0)"]
    ∧ "javascript:void(0)" ∈ (analyze_links
        ["/about", "https://other.example/x", "javascript:void(0)"]
        "https://site.example" (fun _ => ProbeOutcome.transportError)).2.2
    ∧ (analyze_links ["#top"] "https://site.example"
        (fun _ => ProbeOutcome.transportError)).1
      = ["https://site.example#top"] :=
  C8_no_pseudo_url_filtering (fun _ => ProbeOutcome.transportError) rfl

/-- Claim C9: the broken-links list is the order-preserving subsequence, in
document order, of the probed resolved references whose probes failed —
`asyncio.gather` returns results in task-submission order, which is the
document order of the processed anchors, independent of probe completion
order. -/
theorem C9_broken_document_order (links : List String) (base_url : String)
    (probe : String → ProbeOutcome) :
    (analyze_links links base_url probe).2.2
      = ((links.take 50).map (urljoin base_url)).filter
          (fun u => !(check_link u (probe u)).2)
    ∧ (analyze_links links base_url probe).2.2.Sublist
        ((links.take 50).map (urljoin base_url)) := by
  refine ⟨broken_links_eq links base_url probe, ?_⟩
  rw [broken_links_eq]
  exact List.filter_sublist _

/-- Claim C10: a response status strictly below 200 (an informational 1xx
status) satisfies the code's sole `status < 400` criterion, so `check_link`
returns `True` and the URL is counted as not broken — with such statuses
everywhere, the broken list is empty — even though such a status lies
outside the success range `[200, 400)`. -/
theorem C10_informational_reachable (url : String) (status : Nat)
    (links : List String) (base_url : String) (h : status < 200) :
    (check_link url (ProbeOutcome.response status)).2 = true
    ∧ ¬(200 ≤ status ∧ status < 400)
    ∧ (analyze_links links base_url
        (fun _ => ProbeOutcome.response status)).2.2 = [] := by
  have h4 : status < 400 := by omega
  refine ⟨by simp [check_link, h4], by omega, ?_⟩
  rw [broken_links_eq]
  simp [check_link, h4]

/-- Witness for C10 at status 100. -/
theorem C10_informational_reachable_witness :
    (check_link "https://site.example/early" (ProbeOutcome.response 100)).2 = true
    ∧ ¬(200 ≤ 100 ∧ 100 < 400)
    ∧ (analyze_links ["/a"] "https://site.example"
        (fun _ => ProbeOutcome.response 100)).2.2 = [] :=
  C10_informational_reachable "https://site.example/early" 100 ["/a"]
    "https://site.example" (by decide)

example : urljoin "https://site.example" "/about" = "https://site.example/about" := by decide
example : urljoin "https://site.example" "https://other.example/x" = "https://other.example/x" := by decide
example : urljoin "https://site.example" "javascript:void(0)" = "javascript:void(0)" := by decide
example : urljoin "https://site.example/a/b?q=1#f" "#g" = "https://site.example/a/b?q=1#g" := by decide
example : urljoin "https://site.example/a/b" "c.html" = "https://site.example/a/c.html" := by decide
example : strContains "https://site.example/about" "https://site.example" = true := by decide
example : strContains "javascript:void(0)" "https://site.example" = false := by decide
example : strContains "https://evil.example/?u=https://site.example" "https://site.example" = true := by decide
